import Mathlib

/-!
# Verification of `prbs.py` — Pseudo-Random Binary Signal generator

Shallow embedding of the single entry point `prbs(Tmax, Tmin, initstate)` of
`src/prbs.py`, together with theorems settling the specification's claims.

Modelling choices, in source order:

* Python's dynamic typing of the two numeric parameters is captured by `PyVal`:
  a value is either an `int` or a non-`int` number (only integrality is ever
  inspected before a non-integer is rejected, so the non-integer payload is
  irrelevant and omitted).
* The source computes the register length as `np.ceil(Tmax / Tmin)` where `/`
  is CPython's true division of two integers, which returns the IEEE-754
  binary64 double nearest to the exact quotient (ties to even).  `pyCeilDiv`
  reproduces that rounding exactly for the regime the program uses it in
  (`1 ≤ Tmin < Tmax`, so the quotient is ≥ 1).  When the correctly rounded
  quotient reaches `2^1024` CPython raises `OverflowError` at the division
  itself ("integer division result too large for a float"); `pyDivOverflows`
  detects exactly that case and `prbsCore` raises it before the width guard
  is ever consulted, so `pyCeilDiv` is only reached when its value is the
  finite double the program computes.
* The LFSR comes from the external `pylfsr` package, which is not part of this
  repository; its step function is modelled from the spec (§4.2) and the
  collected bit per step is `state[0]` after the step, exactly as read by
  `src/prbs.py` line 88.
* Python `assert` failures and the unreached error paths are collapsed into
  `PrbsError.assertionFailure`; each `raise` site keeps its message verbatim.
-/

/-- A Python numeric argument: an `int`, or some non-`int` number (e.g. a
`float`).  The source rejects non-`int` arguments by `isinstance` before ever
looking at their value, so no payload is needed. -/
inductive PyVal where
  | int : Int → PyVal
  | float : PyVal
deriving DecidableEq, Repr

/-- The error taxonomy of `src/prbs.py`, one constructor per raise-site kind.
`typeMismatch` is Python `TypeError`; `outOfRange`, `unsupportedOption` and
`configurationError` are the three kinds of `ValueError` raised during
validation and width selection; `overflowError` is CPython's `OverflowError`
raised by the true division on line 44 when the quotient exceeds double
range; `assertionFailure` is a failing `assert`. -/
inductive PrbsError where
  | typeMismatch : String → PrbsError
  | outOfRange : String → PrbsError
  | unsupportedOption : String → PrbsError
  | configurationError : String → PrbsError
  | overflowError : PrbsError
  | assertionFailure : PrbsError
deriving DecidableEq, Repr

/-- Fuel-driven floor of the base-2 logarithm (`ilog2Aux n n` is `⌊log2 n⌋`
for `n ≥ 1`).  Arguments of `2^32` or more are reduced 32 bits at a time
(`⌊log2 n⌋ = ⌊log2 ⌊n / 2^32⌋⌋ + 32` there), keeping the evaluation depth
proportional to the bit length divided by 32. -/
def ilog2Aux : Nat → Nat → Nat
  | 0, _ => 0
  | fuel + 1, n =>
    if n < 2 then 0
    else if n < 4294967296 then ilog2Aux fuel (n / 2) + 1
    else ilog2Aux fuel (n / 4294967296) + 32

/-- Floor of the base-2 logarithm, 0 at 0. -/
def ilog2 (n : Nat) : Nat := ilog2Aux n n

/-- Round `p / q` (as a rational, `q > 0`) to the nearest integer, ties to
even — the rounding used by IEEE-754 binary64 arithmetic. -/
def roundHalfEven (p q : Nat) : Nat :=
  let d := p / q
  let r := p % q
  if 2 * r < q then d
  else if q < 2 * r then d + 1
  else if d % 2 = 0 then d else d + 1

/-- `np.ceil(a / b)` of `src/prbs.py` line 44, with `/` CPython's true
division of two integers: the exact quotient is correctly rounded to a
binary64 double (53-bit significand, ties to even), then the ceiling of that
double is taken.  Faithful for `1 ≤ b ≤ a` — the only regime in which the
program evaluates it (parameter validation guarantees `Tmin < Tmax`) —
provided the division does not overflow: when the correctly rounded quotient
reaches `2^1024`, CPython raises `OverflowError` instead of producing a
double, a case `pyDivOverflows` detects and `prbsCore` checks first. -/
def pyCeilDiv (a b : Nat) : Nat :=
  if a = 0 ∨ b = 0 then 0
  else
    let e := ilog2 (a / b)
    let m := roundHalfEven (a * 2 ^ 52) (b * 2 ^ e)
    if 52 ≤ e then m * 2 ^ (e - 52)
    else (m + 2 ^ (52 - e) - 1) / 2 ^ (52 - e)

/-- Whether CPython's true division `a / b` raises `OverflowError`
("integer division result too large for a float"): the case in which the
correctly rounded quotient reaches `2^1024`, i.e. the rounded exponent is at
least 1024, or it is 1023 and the 53-bit significand rounds up to `2^53`.
Faithful for `1 ≤ b ≤ a`, the regime guaranteed by parameter validation. -/
def pyDivOverflows (a b : Nat) : Bool :=
  if a = 0 ∨ b = 0 then false
  else
    let e := ilog2 (a / b)
    if 1024 ≤ e then true
    else e == 1023 && roundHalfEven (a * 2 ^ 52) (b * 2 ^ e) == 2 ^ 53

/-- The mathematical ceiling `⌈a / b⌉` on naturals (`b > 0`), i.e. the
register width the spec prescribes with exact arithmetic. -/
def ceilDivExact (a b : Nat) : Nat := (a + b - 1) / b

/-- The static tap-polynomial table of `src/prbs.py` lines 50–81:
register width → full ordered tap list.  Widths outside 2–31 are never looked
up (the guard on line 45 rejects them first). -/
def fpoly : Nat → List Nat
  | 2 => [2, 1]
  | 3 => [3, 1]
  | 4 => [4, 1]
  | 5 => [5, 2]
  | 6 => [6, 1]
  | 7 => [7, 1]
  | 8 => [8, 4, 3, 2]
  | 9 => [9, 4]
  | 10 => [10, 3]
  | 11 => [11, 2]
  | 12 => [12, 6, 4, 1]
  | 13 => [13, 4, 3, 1]
  | 14 => [14, 8, 6, 1]
  | 15 => [15, 1]
  | 16 => [16, 12, 3, 1]
  | 17 => [17, 3]
  | 18 => [18, 7]
  | 19 => [19, 5, 2, 1]
  | 20 => [20, 3]
  | 21 => [21, 2]
  | 22 => [22, 1]
  | 23 => [23, 5]
  | 24 => [24, 7, 2, 1]
  | 25 => [25, 3]
  | 26 => [26, 6, 2, 1]
  | 27 => [27, 5, 2, 1]
  | 28 => [28, 3]
  | 29 => [29, 2]
  | 30 => [30, 23, 2, 1]
  | 31 => [31, 3]
  | _ => []

/-- Modelled from the spec: the LFSR engine is the external `pylfsr` package,
not part of this repository.  Spec §4.2 step 1: the feedback bit is the
exclusive-or of the register bits at the configured tap positions, 1-indexed
from the register's input end. -/
def lfsrFeedback (taps : List Nat) (s : List Bool) : Bool :=
  taps.foldl (fun b p => xor b (s.getD (p - 1) false)) false

/-- Modelled from the spec: spec §4.2 step 2: all bits shift one position
toward the output end (the list's tail end) and the vacated input position
(the head) receives the feedback bit. -/
def lfsrStep (taps : List Nat) (s : List Bool) : List Bool :=
  lfsrFeedback taps s :: s.dropLast

/-- Modelled from the spec: run the register `k` steps from state `s`,
collecting after each step the bit at position 0 of the new state — exactly
the `seq.append(L.state[0])` of `src/prbs.py` line 88 (position 0 holds the
feedback bit just inserted). -/
def lfsrRun (taps : List Nat) : Nat → List Bool → List Bool
  | 0, _ => []
  | k + 1, s =>
    let s' := lfsrStep taps s
    s'.headD false :: lfsrRun taps k s'

/-- `np.repeat(seq, k)` of `src/prbs.py` line 90: each element, in order, is
repeated `k` times. -/
def npRepeat (xs : List Bool) (k : Nat) : List Bool :=
  (xs.map (List.replicate k)).flatten

/-- The lengths of the maximal runs of identical consecutive values, current
run value and accumulated length threaded through. -/
def runLengthsAux : Bool → Nat → List Bool → List Nat
  | _, k, [] => [k]
  | c, k, b :: bs => if b = c then runLengthsAux c (k + 1) bs else k :: runLengthsAux b 1 bs

/-- `[len(list(v)) for g, v in itertools.groupby(xs)]`: the run-length profile
of `src/prbs.py` lines 94–95. -/
def runLengths : List Bool → List Nat
  | [] => []
  | b :: bs => runLengthsAux b 1 bs

/-- Python `max` over a list (`none` on the empty list, where Python raises). -/
def listMax? : List Nat → Option Nat
  | [] => none
  | x :: xs => some (xs.foldl Nat.max x)

/-- Python `min` over a list (`none` on the empty list, where Python raises). -/
def listMin? : List Nat → Option Nat
  | [] => none
  | x :: xs => some (xs.foldl Nat.min x)

/-- The three `assert` statements of `src/prbs.py` lines 93–95, in order:
signal length, maximal run length against `Tmax`, minimal run length against
`Tmin`.  Any failure raises (modelled `assertionFailure`); otherwise the
padded signal is returned. -/
def prbsAsserts (a b : Int) (sp : List Bool) (n : Nat) : Except PrbsError (List Bool) :=
  if sp.length ≠ (2 ^ n - 1) * b.toNat then .error .assertionFailure
  else if listMax? (runLengths sp) ≠ some a.toNat then .error .assertionFailure
  else if listMin? (runLengths sp) ≠ some b.toNat then .error .assertionFailure
  else .ok sp

/-- `src/prbs.py` lines 43–97, after parameter validation: the true division
of line 44 (raising `OverflowError` when the quotient exceeds double range),
then register-width selection with its `ConfigurationError` guard, tap
lookup, LFSR run over one expected period `2 ^ n - 1`, expansion by `Tmin`,
and the final assertions.
The seed is all ones for `initstate = "ones"`; for `"random"` the register is
seeded with `draw`, the embedding's stand-in for the accepted random draw
(modelled from the spec: `pylfsr` draws the bits, rejecting the all-zero
vector). -/
def prbsCore (a b : Int) (initstate : String) (draw : List Bool) : Except PrbsError (List Bool) :=
  if pyDivOverflows a.toNat b.toNat then .error .overflowError
  else if pyCeilDiv a.toNat b.toNat < 2 ∨ 31 < pyCeilDiv a.toNat b.toNat then
    .error (.configurationError
      "The PRBS cannot be generated, decompose the signal in two sequences")
  else
    prbsAsserts a b
      (npRepeat
        (lfsrRun (fpoly (pyCeilDiv a.toNat b.toNat))
          (2 ^ pyCeilDiv a.toNat b.toNat - 1)
          (if initstate = "ones" then List.replicate (pyCeilDiv a.toNat b.toNat) true
           else draw))
        b.toNat)
      (pyCeilDiv a.toNat b.toNat)

/-- The entry point `prbs(Tmax, Tmin, initstate)` of `src/prbs.py`: the
validation chain of lines 24–47 in source order (`Tmax` type, `Tmax` range,
`Tmin` type — with the source's own copy-pasted message naming `Tmax` —
`Tmin` range, ordering, `initstate` membership), then `prbsCore`. -/
def prbsModel (tmax tmin : PyVal) (initstate : String) (draw : List Bool) :
    Except PrbsError (List Bool) :=
  match tmax with
  | .float => .error (.typeMismatch "`Tmax` must be an integer")
  | .int a =>
    if a < 2 then .error (.outOfRange "`Tmax` must be > 2")
    else
      match tmin with
      | .float => .error (.typeMismatch "`Tmax` must be an integer")
      | .int b =>
        if b < 1 then .error (.outOfRange "`Tmin` must be > 1")
        else if a ≤ b then .error (.outOfRange "`Tmax` must be strictly superior to `Tmin`")
        else if initstate ≠ "random" ∧ initstate ≠ "ones" then
          .error (.unsupportedOption "`initstate` must be either ['random', 'ones']")
        else prbsCore a b initstate draw

/-- Recognizer for the `OutOfRange` error kind (any message). -/
def isOutOfRange : Except PrbsError (List Bool) → Bool
  | .error (.outOfRange _) => true
  | _ => false

/-- Recognizer for the `TypeMismatch` error kind (any message). -/
def isTypeMismatch : Except PrbsError (List Bool) → Bool
  | .error (.typeMismatch _) => true
  | _ => false

instance {ε α : Type} [DecidableEq ε] [DecidableEq α] : DecidableEq (Except ε α)
  | .ok a, .ok b =>
    if h : a = b then .isTrue (by rw [h]) else .isFalse (by intro hh; cases hh; exact h rfl)
  | .error e, .error f =>
    if h : e = f then .isTrue (by rw [h]) else .isFalse (by intro hh; cases hh; exact h rfl)
  | .ok _, .error _ => .isFalse (by intro hh; cases hh)
  | .error _, .ok _ => .isFalse (by intro hh; cases hh)

/-! ## Helper lemmas -/

theorem lfsrRun_length (taps : List Nat) : ∀ (k : Nat) (s : List Bool),
    (lfsrRun taps k s).length = k := by
  intro k
  induction k with
  | zero => intro s; rfl
  | succ k ih => intro s; simp [lfsrRun, ih]

theorem npRepeat_length (k : Nat) : ∀ (xs : List Bool),
    (npRepeat xs k).length = xs.length * k := by
  intro xs
  induction xs with
  | nil => simp [npRepeat]
  | cons x xs ih =>
    show (List.replicate k x ++ npRepeat xs k).length = (xs.length + 1) * k
    rw [List.length_append, List.length_replicate, ih]
    ring

theorem prbsAsserts_ok (a b : Int) (sp s : List Bool) (n : Nat)
    (h : prbsAsserts a b sp n = .ok s) : s = sp := by
  unfold prbsAsserts at h
  split_ifs at h <;> simp_all

theorem isOutOfRange_prbsAsserts (a b : Int) (sp : List Bool) (n : Nat) :
    isOutOfRange (prbsAsserts a b sp n) = false := by
  unfold prbsAsserts
  split_ifs <;> rfl

theorem isOutOfRange_prbsCore (a b : Int) (mode : String) (draw : List Bool) :
    isOutOfRange (prbsCore a b mode draw) = false := by
  unfold prbsCore
  split_ifs <;> first | rfl | exact isOutOfRange_prbsAsserts _ _ _ _

theorem prbsCore_ok (a b : Int) (mode : String) (draw : List Bool) (s : List Bool)
    (h : prbsCore a b mode draw = .ok s) :
    ∃ s0, s = npRepeat (lfsrRun (fpoly (pyCeilDiv a.toNat b.toNat))
        (2 ^ pyCeilDiv a.toNat b.toNat - 1) s0) b.toNat := by
  unfold prbsCore at h
  split_ifs at h <;>
    first
    | exact Except.noConfusion h
    | exact ⟨_, prbsAsserts_ok _ _ _ _ _ h⟩

theorem prbsModel_ok (a b : Int) (mode : String) (draw : List Bool) (s : List Bool)
    (h : prbsModel (.int a) (.int b) mode draw = .ok s) :
    prbsCore a b mode draw = .ok s := by
  simp only [prbsModel] at h
  split_ifs at h <;> first | exact Except.noConfusion h | exact h

/-! ## Claims -/

/-- Claim C1 (code bug): the claim — for every input accepted by validation
the longest run of identical consecutive values in the returned Signal equals
exactly `Tmax` — is contradicted by the code's own assertion.  At the
accepted input `Tmax = 3, Tmin = 2, initstate = 'ones'` the register width is
`ceil(3 / 2) = 2`, the raw period-3 sequence expanded by 2 has maximal run
`2 * 2 = 4 ≠ 3`, the `assert max == Tmax` of `src/prbs.py` line 94 fails, and
the call raises `AssertionError` instead of returning a signal. -/
theorem prbs_maxRun_assert_fails_on_accepted_input :
    prbsModel (.int 3) (.int 2) "ones" [] = .error .assertionFailure ∧
    pyCeilDiv 3 2 = 2 ∧
    listMax? (runLengths (npRepeat (lfsrRun (fpoly 2) 3 (List.replicate 2 true)) 2)) =
      some 4 := by
  decide

/-- Claim C2 (code bug): the claim — for every input accepted by validation
the shortest run in the returned Signal equals exactly `Tmin` — cannot hold
because at accepted inputs whose `Tmin` does not divide `Tmax` the call never
returns.  At `Tmax = 5, Tmin = 3, initstate = 'ones'` the constructed signal
does have minimal run `3 = Tmin`, but its maximal run is `6 ≠ 5`, so the
`assert max == Tmax` of `src/prbs.py` line 94 fails first and `AssertionError`
propagates: no Signal with shortest run `Tmin` is returned. -/
theorem prbs_minRun_never_returned_on_accepted_input :
    prbsModel (.int 5) (.int 3) "ones" [] = .error .assertionFailure ∧
    pyCeilDiv 5 3 = 2 ∧
    listMin? (runLengths (npRepeat (lfsrRun (fpoly 2) 3 (List.replicate 2 true)) 3)) =
      some 3 ∧
    listMax? (runLengths (npRepeat (lfsrRun (fpoly 2) 3 (List.replicate 2 true)) 3)) =
      some 6 := by
  decide

/-- Claim C3: whenever the call returns a Signal, that Signal is the raw
LFSR sequence of exactly `2 ^ RegisterWidth - 1` collected bits (one per
step) with each bit repeated `Tmin` times in order, and its length equals
`(2 ^ RegisterWidth - 1) * Tmin`, where `RegisterWidth` is the width the
code derives from `ceil(Tmax / Tmin)`. -/
theorem prbs_signal_length_and_structure (a b : Int) (mode : String) (draw : List Bool)
    (s : List Bool) (h : prbsModel (.int a) (.int b) mode draw = .ok s) :
    s.length = (2 ^ pyCeilDiv a.toNat b.toNat - 1) * b.toNat ∧
    ∃ s0, s = npRepeat (lfsrRun (fpoly (pyCeilDiv a.toNat b.toNat))
          (2 ^ pyCeilDiv a.toNat b.toNat - 1) s0) b.toNat ∧
        (lfsrRun (fpoly (pyCeilDiv a.toNat b.toNat))
          (2 ^ pyCeilDiv a.toNat b.toNat - 1) s0).length =
          2 ^ pyCeilDiv a.toNat b.toNat - 1 := by
  obtain ⟨s0, rfl⟩ := prbsCore_ok a b mode draw s (prbsModel_ok a b mode draw s h)
  refine ⟨?_, s0, rfl, lfsrRun_length _ _ _⟩
  rw [npRepeat_length, lfsrRun_length]

/-- Witness for C3 at `Tmax = 3, Tmin = 1, initstate = 'ones'`. -/
theorem prbs_signal_length_and_structure_witness :
    prbsModel (.int 3) (.int 1) "ones" [] =
      .ok [false, true, false, false, true, true, true] ∧
    ([false, true, false, false, true, true, true] : List Bool).length =
      (2 ^ pyCeilDiv (3 : Int).toNat (1 : Int).toNat - 1) * (1 : Int).toNat :=
  ⟨by decide,
   (prbs_signal_length_and_structure 3 1 "ones" []
      [false, true, false, false, true, true, true] (by decide)).1⟩

set_option maxRecDepth 4000 in
/-- Claim C4 counterexample: the validated pair `Tmax = 2^1100, Tmin = 1`
(with recognized `initstate`) has derived register width far above 31 — the
exact ceiling of the quotient is `2^1100` (first conjunct: the decimal
literal is `2^1100`) — yet the call does not raise `ConfigurationError`:
CPython's true division of the two integers overflows double range, so
`src/prbs.py` line 44 raises `OverflowError` before the width guard is ever
reached. -/
theorem prbs_width_overflow_preempts_configurationError :
    (13582985290493858492773514283592667786034938469317445497485196697278130927542418487205392083207560592298578262953847383475038725543234929971155548342800628721885763499406390331782864144164680730766837160526223176512798435772129956553355286032203080380775759732320198985094884004069116123084147875437183658467465148948790552744165376 : Int)
      = 2 ^ 1100 ∧
    (2 : Int) ≤ 13582985290493858492773514283592667786034938469317445497485196697278130927542418487205392083207560592298578262953847383475038725543234929971155548342800628721885763499406390331782864144164680730766837160526223176512798435772129956553355286032203080380775759732320198985094884004069116123084147875437183658467465148948790552744165376 ∧
    (1 : Int) ≤ 1 ∧
    (1 : Int) < 13582985290493858492773514283592667786034938469317445497485196697278130927542418487205392083207560592298578262953847383475038725543234929971155548342800628721885763499406390331782864144164680730766837160526223176512798435772129956553355286032203080380775759732320198985094884004069116123084147875437183658467465148948790552744165376 ∧
    31 < ceilDivExact (13582985290493858492773514283592667786034938469317445497485196697278130927542418487205392083207560592298578262953847383475038725543234929971155548342800628721885763499406390331782864144164680730766837160526223176512798435772129956553355286032203080380775759732320198985094884004069116123084147875437183658467465148948790552744165376 : Int).toNat
      (1 : Int).toNat ∧
    prbsModel (.int 13582985290493858492773514283592667786034938469317445497485196697278130927542418487205392083207560592298578262953847383475038725543234929971155548342800628721885763499406390331782864144164680730766837160526223176512798435772129956553355286032203080380775759732320198985094884004069116123084147875437183658467465148948790552744165376)
      (.int 1) "ones" [] = .error .overflowError ∧
    prbsModel (.int 13582985290493858492773514283592667786034938469317445497485196697278130927542418487205392083207560592298578262953847383475038725543234929971155548342800628721885763499406390331782864144164680730766837160526223176512798435772129956553355286032203080380775759732320198985094884004069116123084147875437183658467465148948790552744165376)
      (.int 1) "ones" [] ≠
      .error (.configurationError
        "The PRBS cannot be generated, decompose the signal in two sequences") := by
  refine ⟨by norm_num, by decide, by decide, by decide, by decide, by decide, by decide⟩

/-- Claim C4 (amended): for every integer pair passing parameter validation
with a recognized `initstate`, provided the floating-point division of
`Tmax` by `Tmin` does not overflow double range, if the register width the
code derives (the ceiling of the floating-point quotient `Tmax / Tmin`,
`src/prbs.py` line 44) lies outside `[2, 31]`, the call raises
`ConfigurationError` — before any register is constructed, with no signal
produced.  Validated pairs whose quotient reaches `2^1024` instead raise
`OverflowError` at the division itself. -/
theorem prbs_width_out_of_table (a b : Int) (mode : String) (draw : List Bool)
    (h2 : 2 ≤ a) (h1 : 1 ≤ b) (hlt : b < a) (hmode : mode = "random" ∨ mode = "ones")
    (hov : pyDivOverflows a.toNat b.toNat = false)
    (hw : pyCeilDiv a.toNat b.toNat < 2 ∨ 31 < pyCeilDiv a.toNat b.toNat) :
    prbsModel (.int a) (.int b) mode draw =
      .error (.configurationError
        "The PRBS cannot be generated, decompose the signal in two sequences") := by
  have hm : ¬(mode ≠ "random" ∧ mode ≠ "ones") := by
    rcases hmode with rfl | rfl <;> simp
  simp only [prbsModel, prbsCore]
  rw [if_neg (by omega), if_neg (by omega), if_neg (by omega), if_neg hm,
    if_neg (by simp [hov]), if_pos hw]

/-- Witness for C4 (amended) at `Tmax = 63, Tmin = 2` (derived width 32,
no overflow). -/
theorem prbs_width_out_of_table_witness :
    pyDivOverflows (63 : Int).toNat (2 : Int).toNat = false ∧
    31 < pyCeilDiv (63 : Int).toNat (2 : Int).toNat ∧
    prbsModel (.int 63) (.int 2) "ones" [] =
      .error (.configurationError
        "The PRBS cannot be generated, decompose the signal in two sequences") :=
  ⟨by decide, by decide,
   prbs_width_out_of_table 63 2 "ones" [] (by decide) (by decide) (by decide)
     (Or.inr rfl) (by decide) (Or.inr (by decide))⟩

/-- Claim C5: for every pair of integers, the call raises an `OutOfRange`
error (one of the three range `ValueError`s, raised before any register is
constructed) if and only if `Tmax < 2`, or `Tmin < 1`, or `Tmin ≥ Tmax` —
for any `initstate` string and any random draw. -/
theorem prbs_outOfRange_iff (a b : Int) (mode : String) (draw : List Bool) :
    (a < 2 ∨ b < 1 ∨ a ≤ b) ↔
      isOutOfRange (prbsModel (.int a) (.int b) mode draw) = true := by
  simp only [prbsModel]
  split_ifs with h1 h2 h3 h4
  · simpa [isOutOfRange] using Or.inl h1
  · simpa [isOutOfRange] using Or.inr (Or.inl h2)
  · simpa [isOutOfRange] using Or.inr (Or.inr h3)
  · simp only [isOutOfRange]
    constructor
    · intro h
      omega
    · intro h
      exact absurd h (by simp)
  · rw [isOutOfRange_prbsCore]
    constructor
    · intro h
      omega
    · intro h
      exact absurd h (by simp)

/-- Claim C6 counterexample: at `Tmax = 1` (an integer below the range bound)
and a non-integer `Tmin`, the call does not raise `TypeMismatch`: the range
check on `Tmax` (`src/prbs.py` line 27) runs before the type check on `Tmin`
(line 30), so `OutOfRange` is raised instead. -/
theorem prbs_nonint_Tmin_after_small_Tmax_not_typeMismatch :
    isTypeMismatch (prbsModel (.int 1) .float "ones" []) = false ∧
    isOutOfRange (prbsModel (.int 1) .float "ones" []) = true := by
  decide

/-- Claim C6 (amended): a non-integer `Tmax` is rejected with `TypeMismatch`
before any other processing; a non-integer `Tmin` is rejected with
`TypeMismatch` provided the earlier checks on `Tmax` pass (`Tmax` an integer
with `Tmax ≥ 2`).  In both cases no signal is produced, and the message is
the source's own (copy-pasted) `Tmax` message. -/
theorem prbs_typeMismatch_checks_in_order :
    (∀ (tmin : PyVal) (mode : String) (draw : List Bool),
      prbsModel .float tmin mode draw =
        .error (.typeMismatch "`Tmax` must be an integer")) ∧
    (∀ (a : Int) (mode : String) (draw : List Bool), 2 ≤ a →
      prbsModel (.int a) .float mode draw =
        .error (.typeMismatch "`Tmax` must be an integer")) := by
  constructor
  · intro tmin mode draw
    rfl
  · intro a mode draw ha
    simp only [prbsModel]
    rw [if_neg (by omega)]

/-- Witness for C6 (amended) at `Tmax` non-integer, and at `Tmax = 3` with
`Tmin` non-integer. -/
theorem prbs_typeMismatch_checks_in_order_witness :
    prbsModel .float (.int 3) "ones" [] =
      .error (.typeMismatch "`Tmax` must be an integer") ∧
    ((2 : Int) ≤ 3 ∧ prbsModel (.int 3) .float "ones" [] =
      .error (.typeMismatch "`Tmax` must be an integer")) :=
  ⟨prbs_typeMismatch_checks_in_order.1 (.int 3) "ones" [],
   by decide,
   prbs_typeMismatch_checks_in_order.2 3 "ones" [] (by decide)⟩

/-- Claim C7: with `initstate = 'ones'` the call is deterministic — the
result does not depend on the randomness source at all (the random draw is
consulted only in the `'random'` branch), so two calls with identical
`(Tmax, Tmin)` return bit-identical output. -/
theorem prbs_ones_deterministic (tmax tmin : PyVal) (d1 d2 : List Bool) :
    prbsModel tmax tmin "ones" d1 = prbsModel tmax tmin "ones" d2 := by
  cases tmax with
  | float => rfl
  | int a =>
    cases tmin with
    | float => rfl
    | int b =>
      simp only [prbsModel]
      split_ifs <;> rfl

/-- Claim C8 counterexample: with `InitState = Random` the boundary claim for
`Tmax = 3, Tmin = 1` fails for a possible draw.  The seed `[1, 1, 0]` is a
legal outcome of the rejection-sampled draw (length 3, not all zero), yet the
run of three ones of the period-7 sequence then straddles the period
boundary, the linear maximal run is 2, the `assert max == Tmax` of
`src/prbs.py` line 94 fails and the call raises instead of succeeding. -/
theorem prbs_3_1_random_seed_can_fail :
    ([true, true, false] : List Bool).length = 3 ∧
    ([true, true, false] : List Bool) ≠ List.replicate 3 false ∧
    prbsModel (.int 3) (.int 1) "random" [true, true, false] =
      .error .assertionFailure := by
  decide

/-- Claim C8 (amended): for `Tmax = 3, Tmin = 1` with `InitState = Ones`
the call succeeds with register width 3, tap polynomial `[3, 1]`,
period `2 ^ 3 - 1 = 7`, output length 7, maximal run length 3 and minimal
run length 1 (with `Random`, success depends on the drawn seed). -/
theorem prbs_3_1_ones_boundary :
    prbsModel (.int 3) (.int 1) "ones" [] =
      .ok [false, true, false, false, true, true, true] ∧
    pyCeilDiv 3 1 = 3 ∧
    fpoly 3 = [3, 1] ∧
    (2 ^ 3 - 1 : Nat) = 7 ∧
    ([false, true, false, false, true, true, true] : List Bool).length = 7 ∧
    listMax? (runLengths [false, true, false, false, true, true, true]) = some 3 ∧
    listMin? (runLengths [false, true, false, false, true, true, true]) = some 1 := by
  decide

/-- Claim C9 counterexample: the width-below-2 branch of the
`ConfigurationError` check is reachable.  `Tmax = 10^16 + 1` and
`Tmin = 10^16` pass validation and have exact ceiling `⌈Tmax / Tmin⌉ = 2`,
but the floating-point quotient of `src/prbs.py` line 44 rounds to exactly
`1.0`, so the derived width is 1 and the `n < 2` test raises
`ConfigurationError`. -/
theorem prbs_width_below_two_branch_reachable :
    (2 : Int) ≤ 10000000000000001 ∧ (1 : Int) ≤ 10000000000000000 ∧
    (10000000000000000 : Int) < 10000000000000001 ∧
    pyCeilDiv (10000000000000001 : Int).toNat (10000000000000000 : Int).toNat = 1 ∧
    ceilDivExact (10000000000000001 : Int).toNat (10000000000000000 : Int).toNat = 2 ∧
    prbsModel (.int 10000000000000001) (.int 10000000000000000) "ones" [] =
      .error (.configurationError
        "The PRBS cannot be generated, decompose the signal in two sequences") := by
  decide

/-- Claim C9 (amended): for every integer pair passing parameter validation
(`Tmax ≥ 2`, `Tmin ≥ 1`, `Tmin < Tmax`), the exact mathematical ceiling
`⌈Tmax / Tmin⌉` is always at least 2; the code, however, derives the width by
floating-point division, which can round the quotient of a validated pair
down to 1, so the width-below-2 branch of the check is reachable and
`ConfigurationError` does not arise only from widths greater than 31. -/
theorem prbs_exact_width_ge_two (a b : Int) (h2 : 2 ≤ a) (h1 : 1 ≤ b) (hlt : b < a) :
    2 ≤ ceilDivExact a.toNat b.toNat := by
  unfold ceilDivExact
  have hb : 0 < b.toNat := by omega
  rw [Nat.le_div_iff_mul_le hb]
  omega

/-- Witness for C9 (amended) at `Tmax = 3, Tmin = 2`. -/
theorem prbs_exact_width_ge_two_witness :
    ((2 : Int) ≤ 3 ∧ (1 : Int) ≤ 2 ∧ (2 : Int) < 3) ∧
    2 ≤ ceilDivExact (3 : Int).toNat (2 : Int).toNat :=
  ⟨by decide, prbs_exact_width_ge_two 3 2 (by decide) (by decide) (by decide)⟩

/-- Claim C10: the boundary input `Tmax = 2, Tmin = 1` is accepted — the
validation of `src/prbs.py` line 27 rejects only `Tmax < 2`, despite its
error message demanding `Tmax` be `> 2` — and the call proceeds with derived
register width 2 and returns a signal rather than raising `OutOfRange`. -/
theorem prbs_Tmax_two_accepted :
    prbsModel (.int 2) (.int 1) "ones" [] = .ok [false, true, true] ∧
    pyCeilDiv 2 1 = 2 ∧
    isOutOfRange (prbsModel (.int 2) (.int 1) "ones" []) = false := by
  decide
